import Mathlib

/-!
Verification development for the Elegoo print monitor server
(`server.js` together with its status utilities).  The definitions below
are shallow embeddings of the corresponding JavaScript functions; each
definition is named after the source function it models and carries a
comment pointing at the source location.
-/

namespace ElegooMonitor

/-! ### Status code tables (`utils/status-codes.js`) -/

/-- `MACHINE_STATUS.PRINTING_RECOVERY` from `status-codes.js`. -/
def MACHINE_STATUS_PRINTING_RECOVERY : Int := 13

/-- `JOB_STATUS.PRINTING_RECOVERY` from `status-codes.js`. -/
def JOB_STATUS_PRINTING_RECOVERY : Int := 13

/-- The `MACHINE_STATUS_LABELS` lookup object: an absent key yields
`undefined`, modelled as `none`. -/
def MACHINE_STATUS_LABELS : Int → Option String
  | 0 => some "IDLE"
  | 1 => some "PRINTING"
  | 2 => some "FILE_TRANSFERRING"
  | 5 => some "LEVELING"
  | 7 => some "STOPPING"
  | 8 => some "STOPPED"
  | 9 => some "HOMING"
  | 12 => some "RECOVERY"
  | 13 => some "PRINTING"
  | _ => none

/-- The `JOB_STATUS_LABELS` lookup object. -/
def JOB_STATUS_LABELS : Int → Option String
  | 0 => some "IDLE"
  | 1 => some "HOMING"
  | 2 => some "DROPPING"
  | 3 => some "PRINTING"
  | 4 => some "LIFTING"
  | 5 => some "PAUSING"
  | 6 => some "PAUSED"
  | 7 => some "STOPPING"
  | 8 => some "STOPPED"
  | 9 => some "COMPLETE"
  | 10 => some "FILE_CHECKING"
  | 12 => some "RECOVERY"
  | 13 => some "PRINTING_RECOVERY"
  | 15 => some "LOADING"
  | 16 => some "PREHEATING"
  | 20 => some "LEVELING"
  | _ => none

/-! ### Status parsing (`utils/status-utils.js`) -/

/-- `mapMachineStatusIntToLabel(statusInt)`: the JS argument may be `null`
(when no machine code is present), modelled as `none`.  `null === 13` is
false and `MACHINE_STATUS_LABELS[null]` is `undefined`, so `none ↦ none`. -/
def mapMachineStatusIntToLabel : Option Int → Option String
  | none => none
  | some n =>
    if n = MACHINE_STATUS_PRINTING_RECOVERY then some "PRINTING"
    else MACHINE_STATUS_LABELS n

/-- `mapJobStatusIntToLabel(statusInt)` from `status-utils.js`. -/
def mapJobStatusIntToLabel : Option Int → Option String
  | none => none
  | some n =>
    if n = 18 ∨ n = 19 ∨ n = 21 then some "LOADING"
    else if n = JOB_STATUS_PRINTING_RECOVERY then some "PRINTING"
    else JOB_STATUS_LABELS n

/-- The raw `Status.CurrentStatus` field of a payload: it may be absent,
a bare number, or an array of numbers (the code normalises a bare number
to a one-element array). -/
inductive CurrentStatusVal
  | absent
  | num (n : Int)
  | arr (l : List Int)
  deriving DecidableEq, Repr

/-- A device status payload restricted to the fields `parseStatusPayload`
reads: `data.Status.CurrentStatus` and `data.Status.PrintInfo?.Status`. -/
structure StatusPayload where
  currentStatus : CurrentStatusVal
  printInfoStatus : Option Int
  deriving DecidableEq, Repr

/-- The `machine`/`job` sub-objects of the parsed status. -/
structure SubStatus where
  state : String
  code : Option Int
  deriving DecidableEq, Repr

/-- The `status` object returned by `parseStatusPayload`. -/
structure StatusObj where
  consolidated : String
  machine : SubStatus
  job : SubStatus
  deriving DecidableEq, Repr

/-- The full return value of `parseStatusPayload`:
`{ status, status_code }`. -/
structure ParseResult where
  status : StatusObj
  status_code : Option Int
  deriving DecidableEq, Repr

/-- The machine status code extracted at the top of `parseStatusPayload`:
a bare number is wrapped into a one-element array, then
`machineStatusCode` is the head of a non-empty array and `null`
otherwise. -/
def extractMachineStatusCode : CurrentStatusVal → Option Int
  | .absent => none
  | .num n => some n
  | .arr [] => none
  | .arr (n :: _) => some n

/-- `parseStatusPayload(data)` from `utils/status-utils.js`:
machine and job codes are mapped through the lookup tables with an
`UNKNOWN` fallback; the consolidated label is the machine label unless
the job code equals `JOB_STATUS.PRINTING_RECOVERY`, which forces
`PRINTING`. -/
def parseStatusPayload (data : StatusPayload) : ParseResult :=
  let machineStatusCode := extractMachineStatusCode data.currentStatus
  let machineState := (mapMachineStatusIntToLabel machineStatusCode).getD "UNKNOWN"
  let jobStatusCode := data.printInfoStatus
  let jobState := (mapJobStatusIntToLabel jobStatusCode).getD "UNKNOWN"
  let consolidatedStatus :=
    if jobStatusCode = some JOB_STATUS_PRINTING_RECOVERY then "PRINTING"
    else machineState
  { status :=
      { consolidated := consolidatedStatus
        machine := { state := machineState, code := machineStatusCode }
        job := { state := jobState, code := jobStatusCode } }
    status_code := machineStatusCode }

/-! ### Status update (`server.js`, `updatePrinterStatus`, status branch) -/

/-- The slice of the mutable `printerStatus` object that the
`data.Status` branch of `updatePrinterStatus` reads and writes:
`printerStatus.status`, `printerStatus.status_code`,
`printerStatus.state` (the backward-compatibility copy of the machine
code) and `printerStatus.prev_status`. -/
structure StatusSlice where
  status : StatusObj
  status_code : Option Int
  prev_status : Option String
  deriving DecidableEq, Repr

/-- The initial value of the status slice in `defaultPrinterStatus`. -/
def initialStatusSlice : StatusSlice :=
  { status :=
      { consolidated := "UNKNOWN"
        machine := { state := "UNKNOWN", code := none }
        job := { state := "UNKNOWN", code := none } }
    status_code := none
    prev_status := none }

/-- The `if (data.Status)` branch of `updatePrinterStatus`
(`server.js` lines 607–635), applied to a payload that does carry a
`Status` object.  `use_new_status` falls back to the previous
consolidated value when the newly parsed one is falsy or `"UNKNOWN"`,
but it is only consulted for the transition log and `prev_status`; the
assignment `printerStatus.status = status` stores the freshly parsed
object wholesale. -/
def updateStatusFields (ps : StatusSlice) (data : StatusPayload) : StatusSlice :=
  let parsed := parseStatusPayload data
  let new_consolidated := parsed.status.consolidated
  let use_new_status :=
    if new_consolidated = "" ∨ new_consolidated = "UNKNOWN" then
      ps.status.consolidated
    else new_consolidated
  let prev :=
    if ps.status.consolidated ≠ use_new_status then some ps.status.consolidated
    else ps.prev_status
  { status := parsed.status
    status_code := parsed.status_code
    prev_status := prev }

/-! ### Camera failure tracker (`server.js` lines 141–159) -/

/-- The mutable `cameraStartFailure = { lastError, count }` object. -/
structure CameraFailureTracker where
  lastError : Option String
  count : Nat
  deriving DecidableEq, Repr

/-- `resetCameraFailureTracker()`: called whenever a relay attempt
succeeds (and when no camera URL is configured). -/
def resetCameraFailureTracker : CameraFailureTracker :=
  { lastError := none, count := 0 }

/-- The `errMessage || 'Unknown camera error'` fallback at the top of
`handleCameraStartFailure`: an absent or empty message is replaced by
the fixed fallback string. -/
def normalizeCameraError : Option String → String
  | none => "Unknown camera error"
  | some m => if m = "" then "Unknown camera error" else m

/-- `handleCameraStartFailure(errMessage)`: a repeat of the previous
error message increments the streak counter, a different message
restarts it at 1, and reaching `CAMERA_MAX_START_FAILURES = 3` triggers
the fatal path (urgent `server_restarting` broadcast followed by
`process.exit`).  The returned `Bool` records whether the fatal path was
taken. -/
def handleCameraStartFailure (st : CameraFailureTracker) (errMessage : Option String) :
    CameraFailureTracker × Bool :=
  let message := normalizeCameraError errMessage
  let st' : CameraFailureTracker :=
    if st.lastError = some message then
      { lastError := st.lastError, count := st.count + 1 }
    else
      { lastError := some message, count := 1 }
  (st', decide (3 ≤ st'.count))

/-! ### Broadcast gate (`server.js` lines 516–559)

`broadcastToClients` keeps two module-level variables,
`lastBroadcastTime` and `pendingBroadcast`.  We model the scheduled
`setTimeout` as the pair of its fire time (`lastBroadcastTime +
minInterval`, since the delay is `minInterval - (now - lastBroadcastTime)`)
and the `data` string captured by the closure.  Each call can emit
messages immediately; the emitted list contains one copy of the payload
per client whose `readyState` is `OPEN` (the `webClients.forEach`
loop). -/

/-- State of the broadcast throttle: `lastBroadcastTime` and the pending
deferred send (fire time and captured payload), if any. -/
structure BroadcastState where
  lastBroadcastTime : Nat
  pending : Option (Nat × String)
  deriving DecidableEq, Repr

/-- The `webClients.forEach` send loop: each client is represented by
its `readyState === OPEN` flag, and every open client receives a copy of
the payload. -/
def sendToOpenClients (clients : List Bool) (data : String) : List String :=
  clients.filterMap fun isOpen => if isOpen then some data else none

/-- One call to `broadcastToClients(message)` at time `now`.
A `server_restarting` message is sent immediately regardless of the
elapsed time; other messages are sent immediately only when at least
`minInterval` milliseconds have passed since the last broadcast, and
otherwise schedule a deferred send — but only if none is pending: a call
arriving while a deferred send is pending does nothing (the closure of
the pending `setTimeout` keeps the payload of the call that created
it). -/
def broadcastToClients (minInterval : Nat) (clients : List Bool)
    (st : BroadcastState) (now : Nat) (msgType data : String) :
    BroadcastState × List String :=
  if msgType = "server_restarting" then
    ({ st with lastBroadcastTime := now }, sendToOpenClients clients data)
  else if st.lastBroadcastTime + minInterval ≤ now then
    ({ lastBroadcastTime := now, pending := none }, sendToOpenClients clients data)
  else
    match st.pending with
    | some p => ({ st with pending := some p }, [])
    | none =>
      ({ st with pending := some (st.lastBroadcastTime + minInterval, data) }, [])

/-- The pending `setTimeout` callback firing: it sends the captured
payload to every open client, stamps `lastBroadcastTime` with the fire
time and clears `pendingBroadcast`. -/
def pendingFire (clients : List Bool) (st : BroadcastState) :
    BroadcastState × List String :=
  match st.pending with
  | some (t, d) => ({ lastBroadcastTime := t, pending := none }, sendToOpenClients clients d)
  | none => (st, [])

/-- A sequence of non-urgent (`type: 'status'`) `broadcastToClients`
calls, each given as a `(time, data)` pair; returns the final state and
the concatenation of all immediately emitted messages. -/
def processStatusCalls (minInterval : Nat) (clients : List Bool)
    (st : BroadcastState) : List (Nat × String) → BroadcastState × List String
  | [] => (st, [])
  | (t, d) :: rest =>
    let r := broadcastToClients minInterval clients st t "status" d
    let r' := processStatusCalls minInterval clients r.1 rest
    (r'.1, r.2 ++ r'.2)

/-! ### Auto-connect failover (`server.js` lines 917–986) -/

/-- The module-level `autoConnectState = { printers, currentIdx,
failCount }`; printers are identified by their address strings. -/
structure AutoConnectState where
  printers : List String
  currentIdx : Nat
  failCount : Nat
  deriving DecidableEq, Repr

/-- The scheduling outcome of one `autoConnect` invocation. -/
inductive AutoOutcome
  | connected
  | retryScheduled
  | rediscoveryScheduled
  deriving DecidableEq, Repr

/-- The inner try/catch of `autoConnect` around one connection attempt
(`server.js` lines 953–981), parameterised by whether the awaited calls
of the try block (`connectToPrinter`, `startCameraStreaming`) completed
without throwing.  When the try block completes, the fail counter is
reset; the catch block increments it, and on reaching 3 the cursor
advances — past the end this clears the whole state and schedules
rediscovery, otherwise a retry is scheduled.  Note that this catch block
is the code as written: whether it can ever run on a failed connection
is a separate question, settled by `connectToPrinter` and
`autoConnectStep` below. -/
def autoConnectAttempt (st : AutoConnectState) (tryBlockCompleted : Bool) :
    AutoConnectState × AutoOutcome :=
  if tryBlockCompleted then
    ({ st with failCount := 0 }, .connected)
  else
    let fc := st.failCount + 1
    if 3 ≤ fc then
      let idx := st.currentIdx + 1
      if st.printers.length ≤ idx then
        ({ printers := [], currentIdx := 0, failCount := 0 }, .rediscoveryScheduled)
      else
        ({ st with currentIdx := idx, failCount := 0 }, .retryScheduled)
    else
      ({ st with failCount := fc }, .retryScheduled)

/-- What a caller of `connectToPrinter` observes: whether the returned
promise rejected into the caller, and the value of
`printerStatus.connected` afterwards. -/
structure ConnectToPrinterResult where
  threw : Bool
  connected : Bool
  deriving DecidableEq, Repr

/-- `connectToPrinter(printerIP, printerName)` (`server.js` lines
753–791), parameterised by whether the underlying
`printerClient.connect()` attempt (together with the rest of the try
block) succeeded.  Its try/catch resets the status, broadcasts and logs
on failure but never rethrows, so the promise resolves normally in both
cases: `threw` is `false` whether or not the connection attempt
failed. -/
def connectToPrinter (connectSucceeds : Bool) : ConnectToPrinterResult :=
  if connectSucceeds then
    { threw := false, connected := true }
  else
    { threw := false, connected := false }

/-- One `autoConnect` connection attempt as actually executed: the
`await connectToPrinter(...)` throws into `autoConnect`'s catch block
only if `connectToPrinter` rejects (`startCameraStreaming` likewise
swallows all its errors, `server.js` lines 881–906), so the try block
completes exactly when `connectToPrinter` does not throw. -/
def autoConnectStep (st : AutoConnectState) (connectSucceeds : Bool) :
    AutoConnectState × AutoOutcome :=
  autoConnectAttempt st (!(connectToPrinter connectSucceeds).threw)

/-! ### Media relay frame throttle (`server.js` lines 823–879)

Inside `processStream`, each frame parsed out of the multipart buffer is
dispatched only if `now - lastFrameTime >= minFrameInterval` where
`minFrameInterval = 1000 / MAX_FPS`; otherwise it is dropped.  Times are
modelled as rationals so that `1000 / maxFps` is exact. -/

/-- A frame: an opaque byte buffer, modelled as its list of bytes. -/
def Frame : Type := List Nat

instance : DecidableEq Frame := by
  unfold Frame
  infer_instance

/-- `minFrameInterval = 1000 / MAX_FPS` (`server.js` line 826). -/
def minFrameInterval (maxFps : ℚ) : ℚ := 1000 / maxFps

/-- The throttling filter of the read loop: given the time of the last
accepted frame, a non-empty frame arriving at `now` is accepted exactly
when `now - lastFrameTime ≥ minInterval`, in which case `lastFrameTime`
advances to `now`; otherwise (and for empty frames) it is dropped and
`lastFrameTime` is unchanged.  The result is the list of accepted
`(time, frame)` events in order. -/
def processFrames (minInterval : ℚ) (lastFrameTime : ℚ) :
    List (ℚ × Frame) → List (ℚ × Frame)
  | [] => []
  | (now, f) :: rest =>
    if 0 < f.length then
      if minInterval ≤ now - lastFrameTime then
        (now, f) :: processFrames minInterval now rest
      else
        processFrames minInterval lastFrameTime rest
    else
      processFrames minInterval lastFrameTime rest

/-! ### Camera subscriber registry (`server.js` lines 207–250 and 860–875)

`/api/camera` adds a subscriber callback to `cameraSubscribers` and, if
`latestFrame` is non-null, invokes it synchronously with the cached
frame.  The accepted-frame path of the read loop replaces `latestFrame`
and invokes every registered subscriber.  A subscriber is modelled by
its identifier together with the list of frames it has received, in
order. -/

/-- Relay fan-out state: the cached `latestFrame` and the registered
subscribers with their received frames. -/
structure RelayState where
  latestFrame : Option Frame
  subs : List (Nat × List Frame)

/-- The `if (latestFrame) subscriber(latestFrame)` step at attach time:
the frames a fresh subscriber is sent synchronously when it attaches. -/
def cachedFrameList : Option Frame → List Frame
  | some f => [f]
  | none => []

/-- The `/api/camera` attach sequence: register the subscriber, then
send it `latestFrame` immediately if one exists (nothing otherwise). -/
def attachSubscriber (st : RelayState) (id : Nat) : RelayState :=
  { st with subs := st.subs ++ [(id, cachedFrameList st.latestFrame)] }

/-- The accepted-frame dispatch (`server.js` lines 863–872): replace
`latestFrame` and push the frame to every subscriber. -/
def dispatchFrame (st : RelayState) (f : Frame) : RelayState :=
  { latestFrame := some f
    subs := st.subs.map fun s => (s.1, s.2 ++ [f]) }

/-- Dispatching a sequence of accepted frames in order. -/
def dispatchFrames (st : RelayState) (fs : List Frame) : RelayState :=
  fs.foldl dispatchFrame st

/-! ### Reconnect setup guard (`server.js` lines 736–748)

`ensureReconnectSetup` is guarded by the module-level flag
`reconnectSetupInProgress`: a call finding the flag set returns at once;
otherwise it sets the flag, runs `onPrinterConnected`, and clears the
flag in the `finally` block.  `inFlight` is a ghost counter of the
number of `onPrinterConnected` invocations currently running. -/

/-- Guard state: the `reconnectSetupInProgress` flag, the
`reconnectSetupNeeded` flag and the ghost in-flight counter. -/
structure ReconnectGuard where
  inProgress : Bool
  setupNeeded : Bool
  inFlight : Nat
  deriving DecidableEq, Repr

/-- The entry of `ensureReconnectSetup`: if a setup is already in
progress the call is a no-op (returns `false`); otherwise the flag is
set and a setup starts running (returns `true`). -/
def tryStartSetup (st : ReconnectGuard) : ReconnectGuard × Bool :=
  if st.inProgress then (st, false)
  else ({ st with inProgress := true, inFlight := st.inFlight + 1 }, true)

/-- A running setup completing with outcome `success`: on success
`reconnectSetupNeeded` is cleared, on error it is set; the `finally`
block clears `reconnectSetupInProgress` either way. -/
def finishSetup (st : ReconnectGuard) (success : Bool) : ReconnectGuard :=
  { inProgress := false, setupNeeded := !success, inFlight := st.inFlight - 1 }

/-- Events of the guard's lifecycle. -/
inductive GuardEvent
  | tryStart
  | finish (success : Bool)
  deriving DecidableEq, Repr

/-- One guard event.  A `finish` can only come from a running setup, so
it is a no-op when nothing is in flight (such an event never occurs in a
real trace). -/
def guardStep (st : ReconnectGuard) : GuardEvent → ReconnectGuard
  | .tryStart => (tryStartSetup st).1
  | .finish ok => if st.inFlight = 0 then st else finishSetup st ok

/-- Running a list of guard events from a given state. -/
def guardRun (st : ReconnectGuard) (events : List GuardEvent) : ReconnectGuard :=
  events.foldl guardStep st

/-- The guard state at process start: flag clear, nothing in flight. -/
def initialGuard : ReconnectGuard :=
  { inProgress := false, setupNeeded := false, inFlight := 0 }

/-! ### Disconnected-status reset (`server.js` lines 46–81 and 163–176)

`setDisconnectedStatus` early-returns when `printerStatus` already has
the default disconnected shape (`connected === false`, `printerName ===
'Unknown'`, `state === 'Disconnected'`); otherwise it sets
`reconnectSetupNeeded`, replaces `printerStatus` with
`{ ...defaultPrinterStatus, lastUpdate: now }` and broadcasts. -/

/-- The dynamically typed `printerStatus.state` field: initially the
string `'Disconnected'`, later overwritten with the numeric
`status_code` (or `null`) by `updatePrinterStatus`. -/
inductive StateField
  | label (s : String)
  | code (c : Option Int)
  deriving DecidableEq, Repr

/-- The fields of the module-level `printerStatus` object that
`setDisconnectedStatus` and its guard depend on, plus representative
payload-updated fields to witness the wholesale reset. -/
structure PrinterStatus where
  connected : Bool
  printerName : String
  state : StateField
  progress : Int
  cameraAvailable : Bool
  cameraError : Option String
  lastUpdate : Option String
  statusSlice : StatusSlice
  deriving DecidableEq, Repr

/-- `defaultPrinterStatus` from `server.js` lines 47–78 (restricted to
the modelled fields). -/
def defaultPrinterStatus : PrinterStatus :=
  { connected := false
    printerName := "Unknown"
    state := .label "Disconnected"
    progress := 0
    cameraAvailable := false
    cameraError := none
    lastUpdate := none
    statusSlice := initialStatusSlice }

/-- The server state touched by `setDisconnectedStatus`:
`printerStatus` and the `reconnectSetupNeeded` flag. -/
structure ServerState where
  printerStatus : PrinterStatus
  reconnectSetupNeeded : Bool
  deriving DecidableEq, Repr

/-- `setDisconnectedStatus()` at timestamp `now`: the returned `Bool`
records whether a broadcast was emitted. -/
def setDisconnectedStatus (st : ServerState) (now : String) : ServerState × Bool :=
  if st.printerStatus.connected = false ∧ st.printerStatus.printerName = "Unknown" ∧
      st.printerStatus.state = .label "Disconnected" then
    (st, false)
  else
    ({ printerStatus := { defaultPrinterStatus with lastUpdate := some now }
       reconnectSetupNeeded := true }, true)

/-! ## Theorems -/

/-- Claim C1.  The spec asserts that once `printerStatus.status.consolidated`
holds a valid (non-`UNKNOWN`) label, a payload whose parsed consolidated
label is `UNKNOWN` leaves the stored value unchanged.  The code computes
the retained value `use_new_status` (per its own comment "Only update if
new value is valid") but then stores the freshly parsed object wholesale
via `printerStatus.status = status`: after a payload with machine code 1
(consolidated `PRINTING`), a payload with unmappable machine code 99
overwrites the consolidated label with `UNKNOWN`. -/
theorem c1_consolidated_overwritten_by_unknown :
    (updateStatusFields initialStatusSlice ⟨.arr [1], none⟩).status.consolidated
      = "PRINTING" ∧
    (updateStatusFields (updateStatusFields initialStatusSlice ⟨.arr [1], none⟩)
        ⟨.arr [99], none⟩).status.consolidated = "UNKNOWN" := by
  decide

/-- Claim C2.  The spec asserts bounded retries: each failed connection
attempt increments the failure counter and after exactly 3 consecutive
failures on one candidate the list is cleared and rediscovery is
scheduled.  But `connectToPrinter` catches connection failures and never
rethrows, so its promise resolves normally and `autoConnect` takes the
success path for a failing candidate: the counter is reset to 0, the
outcome is `connected` and no retry or rediscovery is ever scheduled —
the catch block holding `failCount++` is unreachable from a failed
connection.  With a single unreachable candidate, the attempt leaves the
state at `⟨[addr], 0, 0⟩` with outcome `connected`, for this and every
later attempt. -/
theorem c2_failed_connect_takes_success_path :
    (connectToPrinter false).threw = false ∧
    autoConnectStep ⟨["192.168.1.50"], 0, 0⟩ false
      = (⟨["192.168.1.50"], 0, 0⟩, .connected) ∧
    (∀ (st : AutoConnectState) (connectSucceeds : Bool),
      autoConnectStep st connectSucceeds
        = ({ st with failCount := 0 }, .connected)) := by
  refine ⟨rfl, rfl, ?_⟩
  intro st connectSucceeds
  cases connectSucceeds <;> rfl

/-- Claim C4.  A job code equal to `JOB_STATUS.PRINTING_RECOVERY` (13)
forces the consolidated label to `PRINTING` for every machine-level
`CurrentStatus` value, and the payload `CurrentStatus=[1]`,
`PrintInfo.Status=13` parses to consolidated `PRINTING`, machine state
`PRINTING` (code 1) and job state `PRINTING` (code 13). -/
theorem c4_printing_recovery_forces_printing (cs : CurrentStatusVal) :
    (parseStatusPayload ⟨cs, some 13⟩).status.consolidated = "PRINTING" ∧
    parseStatusPayload ⟨.arr [1], some 13⟩ =
      ⟨⟨"PRINTING", ⟨"PRINTING", some 1⟩, ⟨"PRINTING", some 13⟩⟩, some 1⟩ := by
  constructor
  · simp [parseStatusPayload, JOB_STATUS_PRINTING_RECOVERY]
  · decide

/-- Witness for C4 at a concrete machine-level status value. -/
theorem c4_printing_recovery_forces_printing_witness :
    (parseStatusPayload ⟨.num 8, some 13⟩).status.consolidated = "PRINTING" :=
  (c4_printing_recovery_forces_printing (.num 8)).1

/-- Claim C5.  The camera failure tracker resets to zero on every
successful relay start; a failure whose (normalised) message differs
from the stored one restarts the count at 1; an identical message
increments it; two consecutive failures with differing messages never
take the fatal path, while three consecutive identical failures take it
exactly at the third. -/
theorem c5_camera_failure_streaks (m1 m2 m : String)
    (h : normalizeCameraError (some m1) ≠ normalizeCameraError (some m2)) :
    resetCameraFailureTracker = ⟨none, 0⟩ ∧
    (∀ st : CameraFailureTracker,
      st.lastError ≠ some (normalizeCameraError (some m2)) →
      handleCameraStartFailure st (some m2)
        = (⟨some (normalizeCameraError (some m2)), 1⟩, false)) ∧
    (∀ st : CameraFailureTracker,
      st.lastError = some (normalizeCameraError (some m)) →
      (handleCameraStartFailure st (some m)).1.count = st.count + 1) ∧
    ((handleCameraStartFailure resetCameraFailureTracker (some m1)).2 = false ∧
     (handleCameraStartFailure
        (handleCameraStartFailure resetCameraFailureTracker (some m1)).1
        (some m2)).2 = false) ∧
    ((handleCameraStartFailure resetCameraFailureTracker (some m)).2 = false ∧
     (handleCameraStartFailure
        (handleCameraStartFailure resetCameraFailureTracker (some m)).1
        (some m)).2 = false ∧
     (handleCameraStartFailure
        (handleCameraStartFailure
          (handleCameraStartFailure resetCameraFailureTracker (some m)).1
          (some m)).1
        (some m)).2 = true) := by
  refine ⟨rfl, ?_, ?_, ?_, ?_⟩
  · intro st hne
    simp [handleCameraStartFailure, hne]
  · intro st heq
    simp [handleCameraStartFailure, heq]
  · constructor
    · simp [handleCameraStartFailure, resetCameraFailureTracker]
    · simp [handleCameraStartFailure, resetCameraFailureTracker, h]
  · refine ⟨?_, ?_, ?_⟩
    · simp [handleCameraStartFailure, resetCameraFailureTracker]
    · simp [handleCameraStartFailure, resetCameraFailureTracker]
    · simp [handleCameraStartFailure, resetCameraFailureTracker]

/-- Witness for C5: with the distinct messages `alpha`, `beta` the second
of two differing failures is not fatal. -/
theorem c5_camera_failure_streaks_witness :
    (handleCameraStartFailure
      (handleCameraStartFailure resetCameraFailureTracker (some "alpha")).1
      (some "beta")).2 = false :=
  (c5_camera_failure_streaks "alpha" "beta" "x" (by decide)).2.2.2.1.2

/-- Helper for C3: while a deferred send is pending, further non-urgent
calls whose times fall short of `lastBroadcastTime + minInterval` emit
nothing and leave the gate state (including the captured payload)
unchanged. -/
theorem processStatusCalls_pending_noop (minI : Nat) (clients : List Bool)
    (T ft : Nat) (d0 : String) :
    ∀ calls : List (Nat × String), (∀ p ∈ calls, p.1 < T + minI) →
    processStatusCalls minI clients ⟨T, some (ft, d0)⟩ calls
      = (⟨T, some (ft, d0)⟩, []) := by
  intro calls
  induction calls with
  | nil => intro _; rfl
  | cons p rest ih =>
    intro h
    obtain ⟨t, d⟩ := p
    have ht : ¬ (T + minI ≤ t) := by
      have := h (t, d) (List.mem_cons_self _ _)
      omega
    have hrest := ih fun q hq => h q (List.mem_cons_of_mem _ hq)
    simp [processStatusCalls, broadcastToClients, ht, hrest]

/-- Claim C3, counterexample.  The claim states that the deferred send
fired after a burst carries the content of the *last* call in the burst.
With a send at time 0 (interval 1000) and a burst `("a"` at 100,
`"b"` at 200`)`, the deferred send delivers `"a"` — the payload captured
by the call that scheduled it, not the last call's `"b"`. -/
theorem c3_deferred_carries_first_counterexample :
    (broadcastToClients 1000 [true] ⟨0, none⟩ 100 "status" "a").2 = [] ∧
    (broadcastToClients 1000 [true]
      (broadcastToClients 1000 [true] ⟨0, none⟩ 100 "status" "a").1
      200 "status" "b").2 = [] ∧
    (pendingFire [true]
      (broadcastToClients 1000 [true]
        (broadcastToClients 1000 [true] ⟨0, none⟩ 100 "status" "a").1
        200 "status" "b").1).2 = ["a"] ∧
    (pendingFire [true]
      (broadcastToClients 1000 [true]
        (broadcastToClients 1000 [true] ⟨0, none⟩ 100 "status" "a").1
        200 "status" "b").1).2 ≠ ["b"] := by
  refine ⟨rfl, rfl, rfl, ?_⟩
  decide

/-- Claim C3, amended.  For every burst of non-urgent calls made within
one throttle interval after a send (gate state `⟨T, none⟩`, all call
times below `T + minInterval`): no call emits anything immediately, and
the deferred send fires at `T + minInterval` delivering exactly one
message per open subscriber whose content is that of the *first* call of
the burst (later calls of the burst are coalesced away). -/
theorem c3_burst_coalesces_to_first (minI T t : Nat) (d : String)
    (rest : List (Nat × String)) (clients : List Bool)
    (ht : t < T + minI) (hrest : ∀ p ∈ rest, p.1 < T + minI) :
    (processStatusCalls minI clients ⟨T, none⟩ ((t, d) :: rest)).2 = [] ∧
    pendingFire clients
        (processStatusCalls minI clients ⟨T, none⟩ ((t, d) :: rest)).1
      = (⟨T + minI, none⟩, sendToOpenClients clients d) := by
  have ht' : ¬ (T + minI ≤ t) := by omega
  have hpend := processStatusCalls_pending_noop minI clients T (T + minI) d rest hrest
  constructor
  · simp [processStatusCalls, broadcastToClients, ht', hpend]
  · simp [processStatusCalls, broadcastToClients, ht', hpend, pendingFire]

/-- Witness for the amended C3 at a concrete burst. -/
theorem c3_burst_coalesces_to_first_witness :
    (processStatusCalls 1000 [true] ⟨0, none⟩ [(100, "a"), (200, "b")]).2 = [] ∧
    pendingFire [true]
        (processStatusCalls 1000 [true] ⟨0, none⟩ [(100, "a"), (200, "b")]).1
      = (⟨0 + 1000, none⟩, sendToOpenClients [true] "a") :=
  c3_burst_coalesces_to_first 1000 0 100 "a" [(200, "b")] [true]
    (by decide) (by decide)

/-- Claim C6.  An urgent `server_restarting` message is emitted to every
open subscriber in the very step of the call, regardless of the elapsed
time since the last send; `lastBroadcastTime` is stamped with the call
time; and the pending deferred broadcast (if any) is untouched, so the
urgent message is never reordered behind it. -/
theorem c6_urgent_bypasses_throttle (minI now : Nat) (clients : List Bool)
    (st : BroadcastState) (data : String) :
    broadcastToClients minI clients st now "server_restarting" data
      = ({ st with lastBroadcastTime := now }, sendToOpenClients clients data) ∧
    (broadcastToClients minI clients st now "server_restarting" data).1.pending
      = st.pending := by
  constructor <;> simp [broadcastToClients]

/-- Witness for C6: an urgent message sent while a deferred broadcast is
pending and the interval has not elapsed. -/
theorem c6_urgent_bypasses_throttle_witness :
    broadcastToClients 1000 [true, false] ⟨5, some (1005, "old")⟩ 300
        "server_restarting" "bye"
      = (⟨300, some (1005, "old")⟩, ["bye"]) := by
  simpa using
    (c6_urgent_bypasses_throttle 1000 300 [true, false]
      ⟨5, some (1005, "old")⟩ "bye").1

/-- Helper for C7: every frame accepted by the throttle arrives at least
`minInterval` after the previous accepted frame (the chain is anchored
at the incoming `lastFrameTime`). -/
theorem processFrames_chain (minI : ℚ) :
    ∀ (events : List (ℚ × Frame)) (t0 : ℚ) (f0 : Frame),
    List.Chain (fun a b => minI ≤ b.1 - a.1) (t0, f0)
      (processFrames minI t0 events) := by
  intro events
  induction events with
  | nil => intro t0 f0; exact List.Chain.nil
  | cons e rest ih =>
    intro t0 f0
    obtain ⟨now, f⟩ := e
    by_cases hlen : 0 < f.length
    · by_cases hthr : minI ≤ now - t0
      · have hstep : processFrames minI t0 ((now, f) :: rest)
            = (now, f) :: processFrames minI now rest := by
          simp [processFrames, hlen, hthr]
        rw [hstep]
        exact List.Chain.cons hthr (ih now f)
      · simpa [processFrames, hlen, hthr] using ih t0 f0
    · simpa [processFrames, hlen] using ih t0 f0

/-- Helper for C7: the accepted frames are a subsequence of the incoming
frames — dropped frames are never queued, duplicated or delivered
later. -/
theorem processFrames_sublist (minI : ℚ) :
    ∀ (events : List (ℚ × Frame)) (t0 : ℚ),
    (processFrames minI t0 events).Sublist events := by
  intro events
  induction events with
  | nil => intro t0; simp [processFrames]
  | cons e rest ih =>
    intro t0
    obtain ⟨now, f⟩ := e
    by_cases hlen : 0 < f.length
    · by_cases hthr : minI ≤ now - t0
      · simpa [processFrames, hlen, hthr] using
          List.Sublist.cons₂ (now, f) (ih now)
      · simpa [processFrames, hlen, hthr] using
          List.Sublist.cons (now, f) (ih t0)
    · simpa [processFrames, hlen] using List.Sublist.cons (now, f) (ih t0)

/-- Claim C7.  In the read loop, a non-empty frame is accepted and
dispatched only if at least `1000 / maxFps` milliseconds have elapsed
since the last accepted frame (successive accepted times are spaced by
at least `minFrameInterval maxFps`, anchored at the incoming
`lastFrameTime`), and the accepted frames form a subsequence of the
arriving frames: frames inside the interval are dropped, never queued or
delivered later. -/
theorem c7_frame_throttle (maxFps t0 : ℚ) (f0 : Frame)
    (events : List (ℚ × Frame)) :
    List.Chain (fun a b => minFrameInterval maxFps ≤ b.1 - a.1) (t0, f0)
      (processFrames (minFrameInterval maxFps) t0 events) ∧
    (processFrames (minFrameInterval maxFps) t0 events).Sublist events :=
  ⟨processFrames_chain _ events t0 f0, processFrames_sublist _ events t0⟩

/-- Witness for C7 with `MAX_FPS = 15` on a concrete fast source. -/
theorem c7_frame_throttle_witness :
    List.Chain (fun a b => minFrameInterval 15 ≤ b.1 - a.1) ((0 : ℚ), ([] : Frame))
      (processFrames (minFrameInterval 15) 0 [(100, [1]), (120, [2]), (300, [3])]) ∧
    (processFrames (minFrameInterval 15) 0
      [(100, [1]), (120, [2]), (300, [3])]).Sublist [(100, [1]), (120, [2]), (300, [3])] :=
  c7_frame_throttle 15 0 [] [(100, [1]), (120, [2]), (300, [3])]

/-- Helper for C8: dispatching a sequence of accepted frames appends the
sequence, in order, to every registered subscriber's received list. -/
theorem dispatchFrames_subs :
    ∀ (fs : List Frame) (st : RelayState),
    (dispatchFrames st fs).subs = st.subs.map fun s => (s.1, s.2 ++ fs) := by
  intro fs
  induction fs with
  | nil =>
    intro st
    simp [dispatchFrames]
  | cons f rest ih =>
    intro st
    have : dispatchFrames st (f :: rest) = dispatchFrames (dispatchFrame st f) rest := rfl
    rw [this, ih]
    simp [dispatchFrame, Function.comp]

/-- Claim C8.  A subscriber attaching while `latestFrame` is cached is
sent the cached frame synchronously at attach time, so after any
sequence of subsequently accepted frames its received list is the cached
frame followed by the new frames; when nothing is cached, nothing is
sent at attach and it receives only the new frames. -/
theorem c8_late_joiner_gets_cached_frame (st : RelayState) (id : Nat)
    (fs : List Frame) :
    (dispatchFrames (attachSubscriber st id) fs).subs
      = (st.subs.map fun s => (s.1, s.2 ++ fs)) ++
        [(id, cachedFrameList st.latestFrame ++ fs)] := by
  rw [dispatchFrames_subs]
  simp [attachSubscriber]

/-- Witness for C8: a late joiner with a cached frame present receives
the cached frame before the newly produced one. -/
theorem c8_late_joiner_gets_cached_frame_witness :
    (dispatchFrames (attachSubscriber ⟨some [7], []⟩ 42) ([[9]] : List Frame)).subs
      = (([] : List (Nat × List Frame)).map fun s => (s.1, s.2 ++ ([[9]] : List Frame))) ++
        [(42, cachedFrameList (some [7]) ++ ([[9]] : List Frame))] :=
  c8_late_joiner_gets_cached_frame ⟨some [7], []⟩ 42 ([[9]] : List Frame)

/-- Helper for C9: the guard invariant — the ghost in-flight counter is
1 exactly when `reconnectSetupInProgress` is set — is preserved by every
guard event. -/
theorem guardStep_preserves_inv (st : ReconnectGuard) (e : GuardEvent)
    (h : st.inFlight = if st.inProgress then 1 else 0) :
    (guardStep st e).inFlight = if (guardStep st e).inProgress then 1 else 0 := by
  cases e with
  | tryStart =>
    by_cases hp : st.inProgress <;>
      simp [guardStep, tryStartSetup, hp, h]
  | finish ok =>
    by_cases hz : st.inFlight = 0
    · simpa [guardStep, hz] using h
    · by_cases hp : st.inProgress
      · simp [hp] at h
        simp [guardStep, hz, finishSetup, h]
      · simp [hp] at h
        exact absurd h hz

/-- Helper for C9: running any event sequence from the initial guard
state keeps the invariant. -/
theorem guardRun_inv (events : List GuardEvent) :
    (guardRun initialGuard events).inFlight
      = if (guardRun initialGuard events).inProgress then 1 else 0 := by
  suffices h : ∀ (es : List GuardEvent) (st : ReconnectGuard),
      st.inFlight = (if st.inProgress then 1 else 0) →
      (guardRun st es).inFlight = if (guardRun st es).inProgress then 1 else 0 by
    exact h events initialGuard rfl
  intro es
  induction es with
  | nil => intro st hst; exact hst
  | cons e rest ih =>
    intro st hst
    exact ih (guardStep st e) (guardStep_preserves_inv st e hst)

/-- Claim C9.  `ensureReconnectSetup` is guarded by
`reconnectSetupInProgress`: a call made while a setup is in progress
returns immediately without starting another setup (the state is
unchanged and no setup is launched), and along every event trace from
process start at most one post-connect setup is in flight. -/
theorem c9_reentrancy_guard (needed : Bool) (n : Nat)
    (events : List GuardEvent) :
    tryStartSetup ⟨true, needed, n⟩ = (⟨true, needed, n⟩, false) ∧
    (guardRun initialGuard events).inFlight ≤ 1 := by
  constructor
  · simp [tryStartSetup]
  · rw [guardRun_inv events]
    split <;> omega

/-- Witness for C9 on a concrete trace with a competing second trigger. -/
theorem c9_reentrancy_guard_witness :
    tryStartSetup ⟨true, false, 1⟩ = (⟨true, false, 1⟩, false) ∧
    (guardRun initialGuard
      [.tryStart, .tryStart, .finish true, .tryStart]).inFlight ≤ 1 :=
  c9_reentrancy_guard false 1 [.tryStart, .tryStart, .finish true, .tryStart]

/-- Claim C10.  `setDisconnectedStatus` is idempotent: on a state already
in the default disconnected shape (any `lastUpdate`, any
`reconnectSetupNeeded`) it changes nothing and emits no broadcast, and a
second call right after any call is always a no-op — repeated
disconnect/error events after a disconnect produce exactly one reset and
one broadcast. -/
theorem c10_setDisconnectedStatus_idempotent (st : ServerState)
    (t now now2 : String) (needed : Bool) :
    setDisconnectedStatus
        ⟨{ defaultPrinterStatus with lastUpdate := some t }, needed⟩ now
      = (⟨{ defaultPrinterStatus with lastUpdate := some t }, needed⟩, false) ∧
    setDisconnectedStatus (setDisconnectedStatus st now).1 now2
      = ((setDisconnectedStatus st now).1, false) := by
  constructor
  · simp [setDisconnectedStatus, defaultPrinterStatus]
  · by_cases hg : (st.printerStatus.connected = false ∧
        st.printerStatus.printerName = "Unknown" ∧
        st.printerStatus.state = .label "Disconnected")
    · simp [setDisconnectedStatus, hg]
    · simp [setDisconnectedStatus, hg, defaultPrinterStatus]

/-- Witness for C10: a connected status is reset once; the second call
changes nothing and emits no second broadcast. -/
theorem c10_setDisconnectedStatus_idempotent_witness :
    setDisconnectedStatus
        ⟨{ defaultPrinterStatus with lastUpdate := some "t0" }, true⟩ "t1"
      = (⟨{ defaultPrinterStatus with lastUpdate := some "t0" }, true⟩, false) ∧
    setDisconnectedStatus
        (setDisconnectedStatus
          ⟨{ defaultPrinterStatus with connected := true, printerName := "Centauri" },
            false⟩ "t1").1 "t2"
      = ((setDisconnectedStatus
          ⟨{ defaultPrinterStatus with connected := true, printerName := "Centauri" },
            false⟩ "t1").1, false) :=
  c10_setDisconnectedStatus_idempotent
    ⟨{ defaultPrinterStatus with connected := true, printerName := "Centauri" }, false⟩
    "t0" "t1" "t2" true

end ElegooMonitor
